import Mathlib

/-! Shallow embedding of the simple-option contract: the record type from
state.rs, the message types from msg.rs, and the four handlers plus the
query from contract.rs. Addresses are strings, coin amounts are naturals
(no arithmetic is performed on them), storage is the optional single
record, and fallible handlers return Except. -/

/-- A coin: a denomination and a non-negative amount (cosmwasm Coin). -/
structure Coin where
  denom : String
  amount : Nat
  deriving DecidableEq

/-- The stored option record (State in state.rs). -/
structure State where
  creator : String
  owner : String
  collateral : List Coin
  counter_offer : List Coin
  expires : Nat
  deriving DecidableEq

/-- Message metadata: sender address and attached funds. -/
structure MessageInfo where
  sender : String
  funds : List Coin
  deriving DecidableEq

/-- Payload of the create request (InstantiateMsg in msg.rs). -/
structure InstantiateMsg where
  counter_offer : List Coin
  expires : Nat
  deriving DecidableEq

/-- The contract error type (error.rs, reconstructed from the variants the
handlers raise). Std_NotFound models the StdError raised by CONFIG.load
when no record exists; InvalidAddress models a failing addr_validate. -/
inductive ContractError where
  | Unauthorized : ContractError
  | OptionExpired (expired : Nat) : ContractError
  | OptionNotExpired (expires : Nat) : ContractError
  | CounterOfferMismatch (offer counter_offer : List Coin) : ContractError
  | Std_NotFound : ContractError
  | InvalidAddress : ContractError
  deriving DecidableEq

/-- An outbound bank transfer instruction (BankMsg.Send). -/
inductive BankMsg where
  | Send (to_address : String) (amount : List Coin) : BankMsg
  deriving DecidableEq

/-- A response: ordered transfer instructions and audit attributes. -/
structure Response where
  messages : List BankMsg
  attributes : List (String × String)
  deriving DecidableEq

def Response.new : Response := ⟨[], []⟩

def Response.default : Response := ⟨[], []⟩

def Response.add_message (r : Response) (m : BankMsg) : Response :=
  { r with messages := r.messages ++ [m] }

def Response.add_attribute (r : Response) (k v : String) : Response :=
  { r with attributes := r.attributes ++ [(k, v)] }

def Response.add_attributes (r : Response) (attrs : List (String × String)) : Response :=
  { r with attributes := r.attributes ++ attrs }

/-- instantiate from contract.rs: reject an expiry at or below the current
height, otherwise build the record with creator = owner = sender and
collateral = attached funds, returning the default (empty) response. -/
def instantiate (height : Nat) (info : MessageInfo) (msg : InstantiateMsg) :
    Except ContractError (State × Response) :=
  if msg.expires ≤ height then
    .error (.OptionExpired msg.expires)
  else
    .ok ({ creator := info.sender
           owner := info.sender
           collateral := info.funds
           counter_offer := msg.counter_offer
           expires := msg.expires }, Response.default)

/-- execute_transfer from contract.rs. The parameter api models
deps.api.addr_validate: it returns the validated address or nothing. The
handler ignores the height (its env parameter is unused in the source). -/
def execute_transfer (api : String → Option String) (storage : Option State)
    (_height : Nat) (info : MessageInfo) (recipient : String) :
    Except ContractError (Option State × Response) :=
  match storage with
  | none => .error .Std_NotFound
  | some state =>
    if info.sender ≠ state.owner then
      .error .Unauthorized
    else
      match api recipient with
      | none => .error .InvalidAddress
      | some addr =>
        .ok (some { state with owner := addr },
          Response.new.add_attributes [("action", "transfer"), ("owner", recipient)])

/-- execute_execute from contract.rs: owner check, then strict pre-expiry
check, then exact (ordered list) funds comparison; on success delete the
record and emit the two transfers then the audit attribute. -/
def execute_execute (storage : Option State) (height : Nat) (info : MessageInfo) :
    Except ContractError (Option State × Response) :=
  match storage with
  | none => .error .Std_NotFound
  | some state =>
    if info.sender ≠ state.owner then
      .error .Unauthorized
    else if height ≥ state.expires then
      .error (.OptionExpired state.expires)
    else if info.funds ≠ state.counter_offer then
      .error (.CounterOfferMismatch info.funds state.counter_offer)
    else
      .ok (none,
        (((Response.new.add_message (.Send state.creator state.counter_offer)).add_message
          (.Send state.owner state.collateral)).add_attribute "action" "execute"))

/-- execute_burn from contract.rs: no sender check; reject while the height
is strictly below expiry, otherwise delete the record and send the
collateral to the creator. -/
def execute_burn (storage : Option State) (height : Nat) (_info : MessageInfo) :
    Except ContractError (Option State × Response) :=
  match storage with
  | none => .error .Std_NotFound
  | some state =>
    if height < state.expires then
      .error (.OptionNotExpired state.expires)
    else
      .ok (none,
        ((Response.new.add_message (.Send state.creator state.collateral)).add_attribute
          "action" "burn"))

/-- query_config from contract.rs: return the record verbatim or fail. -/
def query_config (storage : Option State) : Except ContractError State :=
  match storage with
  | none => .error .Std_NotFound
  | some state => .ok state

/-- The execute message variants (ExecuteMsg in msg.rs). -/
inductive ExecuteMsg where
  | Transfer (recipient : String) : ExecuteMsg
  | Execute : ExecuteMsg
  | Burn : ExecuteMsg
  deriving DecidableEq

/-- The execute dispatcher from contract.rs. -/
def execute (api : String → Option String) (storage : Option State)
    (height : Nat) (info : MessageInfo) (msg : ExecuteMsg) :
    Except ContractError (Option State × Response) :=
  match msg with
  | .Transfer recipient => execute_transfer api storage height info recipient
  | .Execute => execute_execute storage height info
  | .Burn => execute_burn storage height info

/-- One transaction: a failed invocation leaves storage unchanged (the host
runtime reverts all writes on error), a successful one commits the write. -/
def step (api : String → Option String) (storage : Option State)
    (height : Nat) (info : MessageInfo) (msg : ExecuteMsg) :
    Option State × Except ContractError Response :=
  match execute api storage height info msg with
  | .ok (st, r) => (st, .ok r)
  | .error e => (storage, .error e)

/-- The storage reached after a sequence of execute transactions. -/
def runSteps (api : String → Option String) (storage : Option State)
    (reqs : List (Nat × MessageInfo × ExecuteMsg)) : Option State :=
  reqs.foldl (fun st r => (step api st r.1 r.2.1 r.2.2).1) storage

/-! Shared concrete values used by the witnesses. -/

def wApi : String → Option String := fun s => some s

def wState : State :=
  { creator := "creator"
    owner := "owner"
    collateral := [⟨"BTC", 1⟩]
    counter_offer := [⟨"ETH", 40⟩]
    expires := 100 }

def wInfo : MessageInfo := ⟨"owner", [⟨"ETH", 40⟩]⟩

/-- C1 counterexample: the claim as stated is false. The attached funds
[(OSMO,2),(ATOM,1)] are a permutation of the stored counter_offer
[(ATOM,1),(OSMO,2)] — hence equal to it as a set of (denomination, amount)
pairs irrespective of order — yet exercise by the owner strictly before
expiry rejects them with CounterOfferMismatch, because the source compares
the two Vec values with ordered list equality. -/
theorem C1_counterexample :
    ([Coin.mk "OSMO" 2, Coin.mk "ATOM" 1].Perm
      [Coin.mk "ATOM" 1, Coin.mk "OSMO" 2]) ∧
    execute_execute
      (some { creator := "creator", owner := "owner",
              collateral := [⟨"BTC", 1⟩],
              counter_offer := [⟨"ATOM", 1⟩, ⟨"OSMO", 2⟩],
              expires := 100 })
      50 ⟨"owner", [⟨"OSMO", 2⟩, ⟨"ATOM", 1⟩]⟩ =
      .error (.CounterOfferMismatch [⟨"OSMO", 2⟩, ⟨"ATOM", 1⟩]
        [⟨"ATOM", 1⟩, ⟨"OSMO", 2⟩]) := by
  exact ⟨List.Perm.swap _ _ _, rfl⟩

/-- C1 (amended): the funds check of exercise accepts exactly when the
attached funds equal the stored counter_offer as ordered lists
(element-wise); for every attached-funds list not equal to the
counter_offer as a list (requester being the owner and
current_height < expires), exercise fails with CounterOfferMismatch
carrying the attached funds as offer and the stored counter_offer, and the
record is unchanged. -/
theorem C1_exercise_funds_exact_list_equality (api : String → Option String)
    (state : State) (funds : List Coin) (height : Nat)
    (hexp : height < state.expires) :
    ((∃ p, execute_execute (some state) height ⟨state.owner, funds⟩ = .ok p) ↔
      funds = state.counter_offer) ∧
    (funds ≠ state.counter_offer →
      step api (some state) height ⟨state.owner, funds⟩ .Execute =
        (some state, .error (.CounterOfferMismatch funds state.counter_offer))) := by
  have h2 : ¬ height ≥ state.expires := by omega
  constructor
  · constructor
    · rintro ⟨p, hp⟩
      by_contra hne
      simp [execute_execute, h2, hne] at hp
    · intro hf
      subst hf
      exact ⟨_, by simp [execute_execute, h2]; rfl⟩
  · intro hf
    simp [step, execute, execute_execute, h2, hf]

/-- C1 witness: the amended theorem applied at a concrete record, with
matching funds accepted and a short list rejected with the exact error. -/
theorem C1_exercise_funds_witness :
    ((∃ p, execute_execute (some wState) 50 ⟨wState.owner, [⟨"ETH", 39⟩]⟩ = .ok p) ↔
      [Coin.mk "ETH" 39] = wState.counter_offer) ∧
    ([Coin.mk "ETH" 39] ≠ wState.counter_offer →
      step wApi (some wState) 50 ⟨wState.owner, [⟨"ETH", 39⟩]⟩ .Execute =
        (some wState, .error (.CounterOfferMismatch [⟨"ETH", 39⟩] wState.counter_offer))) :=
  C1_exercise_funds_exact_list_equality wApi wState [⟨"ETH", 39⟩] 50 (by decide)

/-- C2: at the exact boundary current_height = expires, exercise by the
owner with matching funds fails with OptionExpired while reclaim succeeds;
in general exercise succeeds iff the height is strictly below expires and
reclaim succeeds iff the height is at least expires. -/
theorem C2_expiry_boundary (state : State) (height : Nat) (info : MessageInfo)
    (hsender : info.sender = state.owner) (hfunds : info.funds = state.counter_offer) :
    ((∃ p, execute_execute (some state) height info = .ok p) ↔ height < state.expires) ∧
    ((∃ p, execute_burn (some state) height info = .ok p) ↔ state.expires ≤ height) ∧
    (height = state.expires →
      execute_execute (some state) height info = .error (.OptionExpired state.expires) ∧
      ∃ p, execute_burn (some state) height info = .ok p) := by
  refine ⟨⟨?_, ?_⟩, ⟨?_, ?_⟩, ?_⟩
  · rintro ⟨p, hp⟩
    by_contra h
    have h2 : height ≥ state.expires := by omega
    simp [execute_execute, hsender, h2] at hp
  · intro hlt
    have h2 : ¬ height ≥ state.expires := by omega
    exact ⟨_, by simp [execute_execute, hsender, hfunds, h2]; rfl⟩
  · rintro ⟨p, hp⟩
    by_contra h
    have hlt : height < state.expires := by omega
    simp [execute_burn, hlt] at hp
  · intro hle
    have h2 : ¬ height < state.expires := by omega
    exact ⟨_, by simp [execute_burn, h2]; rfl⟩
  · intro heq
    have h2 : height ≥ state.expires := by omega
    have h3 : ¬ height < state.expires := by omega
    refine ⟨?_, ⟨_, by simp [execute_burn, h3]; rfl⟩⟩
    simp [execute_execute, hsender, h2]

/-- C2 witness: the boundary theorem applied at height 100 = expires of the
concrete record, by the owner with the exact counter_offer attached. -/
theorem C2_expiry_boundary_witness :
    ((∃ p, execute_execute (some wState) 100 wInfo = .ok p) ↔ 100 < wState.expires) ∧
    ((∃ p, execute_burn (some wState) 100 wInfo = .ok p) ↔ wState.expires ≤ 100) ∧
    (100 = wState.expires →
      execute_execute (some wState) 100 wInfo = .error (.OptionExpired wState.expires) ∧
      ∃ p, execute_burn (some wState) 100 wInfo = .ok p) :=
  C2_expiry_boundary wState 100 wInfo rfl rfl

/-- C3: whenever exercise succeeds (requester is the owner, the height is
strictly below expires, the funds equal the counter_offer), the record is
deleted and the response holds exactly two bank transfers in this fixed
order — counter_offer to the creator, then collateral to the owner —
followed by the single audit attribute (action, execute). -/
theorem C3_exercise_success_effects (state : State) (height : Nat) (info : MessageInfo)
    (hsender : info.sender = state.owner) (hexp : height < state.expires)
    (hfunds : info.funds = state.counter_offer) :
    execute_execute (some state) height info =
      .ok (none,
        { messages := [.Send state.creator state.counter_offer,
                       .Send state.owner state.collateral],
          attributes := [("action", "execute")] }) := by
  have h2 : ¬ height ≥ state.expires := by omega
  simp [execute_execute, hsender, hfunds, h2, Response.new,
    Response.add_message, Response.add_attribute]

/-- C3 witness: a concrete successful exercise, with the two transfers in
the stated order and the single audit attribute. -/
theorem C3_exercise_success_effects_witness :
    execute_execute (some wState) 50 wInfo =
      .ok (none,
        { messages := [.Send wState.creator wState.counter_offer,
                       .Send wState.owner wState.collateral],
          attributes := [("action", "execute")] }) :=
  C3_exercise_success_effects wState 50 wInfo rfl (by decide) rfl

/-- C4: instantiate fails with OptionExpired (writing no record) exactly
when expires is at or below the current height; otherwise it stores a
record with creator = owner = requester, collateral = attached funds, the
given counter_offer and expires, and emits no transfer instructions (the
default response is empty). -/
theorem C4_instantiate_characterization (height : Nat) (info : MessageInfo)
    (msg : InstantiateMsg) :
    (msg.expires ≤ height →
      instantiate height info msg = .error (.OptionExpired msg.expires)) ∧
    (height < msg.expires →
      instantiate height info msg =
        .ok ({ creator := info.sender
               owner := info.sender
               collateral := info.funds
               counter_offer := msg.counter_offer
               expires := msg.expires }, Response.default)) := by
  constructor
  · intro h
    simp [instantiate, h]
  · intro h
    simp [instantiate, show ¬ msg.expires ≤ height by omega]

/-- C5: any requester other than the stored owner is rejected with
Unauthorized by both transfer and exercise, and the record is unchanged,
regardless of the height, the attached funds, the recipient, or the
address validation function. -/
theorem C5_unauthorized_leaves_record (api : String → Option String)
    (state : State) (height : Nat) (info : MessageInfo) (recipient : String)
    (h : info.sender ≠ state.owner) :
    step api (some state) height info (.Transfer recipient) =
      (some state, .error .Unauthorized) ∧
    step api (some state) height info .Execute =
      (some state, .error .Unauthorized) := by
  constructor
  · simp [step, execute, execute_transfer, h]
  · simp [step, execute, execute_execute, h]

/-- C5 witness: a concrete non-owner sender is rejected by both handlers
and the record is unchanged. -/
theorem C5_unauthorized_witness :
    step wApi (some wState) 50 ⟨"mallory", [⟨"ETH", 40⟩]⟩ (.Transfer "mallory") =
      (some wState, .error .Unauthorized) ∧
    step wApi (some wState) 50 ⟨"mallory", [⟨"ETH", 40⟩]⟩ .Execute =
      (some wState, .error .Unauthorized) :=
  C5_unauthorized_leaves_record wApi wState 50 ⟨"mallory", [⟨"ETH", 40⟩]⟩ "mallory"
    (by decide)

/-- C6: reclaim (burn) checks no sender at all — its result is the same
for every requester; when the height has reached expires it deletes the
record and emits exactly one transfer of the collateral to the creator
plus the audit attribute (action, burn); strictly before expires it fails
with OptionNotExpired. -/
theorem C6_burn_characterization (state : State) (height : Nat) (info : MessageInfo) :
    (state.expires ≤ height →
      execute_burn (some state) height info =
        .ok (none,
          { messages := [.Send state.creator state.collateral]
            attributes := [("action", "burn")] })) ∧
    (height < state.expires →
      execute_burn (some state) height info =
        .error (.OptionNotExpired state.expires)) ∧
    (∀ info2 : MessageInfo,
      execute_burn (some state) height info = execute_burn (some state) height info2) := by
  refine ⟨?_, ?_, fun info2 => rfl⟩
  · intro h
    simp [execute_burn, show ¬ height < state.expires by omega, Response.new,
      Response.add_message, Response.add_attribute]
  · intro h
    simp [execute_burn, h]

/-- C7: the exercise handler evaluates its checks in the fixed order
identity, expiry, funds: a non-owner always sees Unauthorized whatever the
height and funds; the owner at or past expiry always sees OptionExpired
whatever the funds; and CounterOfferMismatch can only be reported when the
sender is the owner and the height is strictly below expires. -/
theorem C7_exercise_check_order (state : State) (height : Nat) (info : MessageInfo) :
    (info.sender ≠ state.owner →
      execute_execute (some state) height info = .error .Unauthorized) ∧
    (info.sender = state.owner → height ≥ state.expires →
      execute_execute (some state) height info = .error (.OptionExpired state.expires)) ∧
    (∀ offer co, execute_execute (some state) height info =
        .error (.CounterOfferMismatch offer co) →
      info.sender = state.owner ∧ height < state.expires) := by
  refine ⟨?_, ?_, ?_⟩
  · intro h
    simp [execute_execute, h]
  · intro hs h
    simp [execute_execute, hs, h]
  · intro offer co h
    by_cases hs : info.sender = state.owner
    · by_cases hh : height ≥ state.expires
      · exfalso
        simp [execute_execute, hs, hh] at h
      · exact ⟨hs, by omega⟩
    · exfalso
      simp [execute_execute, hs] at h

/-- Creator preservation: every successful execute invocation that leaves
a record in storage leaves its creator field as it was. -/
theorem execute_preserves_creator (api : String → Option String) (st : State)
    (height : Nat) (info : MessageInfo) (msg : ExecuteMsg) (s2 : State) (r2 : Response)
    (h : execute api (some st) height info msg = .ok (some s2, r2)) :
    s2.creator = st.creator := by
  cases msg with
  | Transfer recipient =>
    simp only [execute, execute_transfer] at h
    split at h
    · exact Except.noConfusion h
    · split at h
      · exact Except.noConfusion h
      · rw [Except.ok.injEq, Prod.mk.injEq, Option.some.injEq] at h
        rw [← h.1]
  | Execute =>
    simp only [execute, execute_execute] at h
    split at h
    · exact Except.noConfusion h
    · split at h
      · exact Except.noConfusion h
      · split at h
        · exact Except.noConfusion h
        · rw [Except.ok.injEq, Prod.mk.injEq] at h
          exact absurd h.1 (by simp)
  | Burn =>
    simp only [execute, execute_burn] at h
    split at h
    · exact Except.noConfusion h
    · rw [Except.ok.injEq, Prod.mk.injEq] at h
      exact absurd h.1 (by simp)

/-- C8: settlement is terminal. A successful exercise or reclaim leaves
no record; from that state the query fails with the not-found error and
every transfer, exercise, or reclaim transaction fails with the not-found
error and leaves storage empty — hence any sequence of further execute
transactions stays in the empty state. -/
theorem C8_settlement_terminal (api : String → Option String) (storage : Option State)
    (height : Nat) (info : MessageInfo) (msg : ExecuteMsg)
    (st : Option State) (r : Response)
    (hsettle : msg = .Execute ∨ msg = .Burn)
    (hok : execute api storage height info msg = .ok (st, r)) :
    st = none ∧
    query_config (none : Option State) = .error .Std_NotFound ∧
    (∀ h2 i2 m2, step api none h2 i2 m2 = (none, .error .Std_NotFound)) ∧
    (∀ reqs, runSteps api none reqs = none) := by
  refine ⟨?_, rfl, ?_, ?_⟩
  · rcases hsettle with hm | hm
    · subst hm
      cases storage with
      | none => exact Except.noConfusion hok
      | some s =>
        simp only [execute, execute_execute] at hok
        split at hok
        · exact Except.noConfusion hok
        · split at hok
          · exact Except.noConfusion hok
          · split at hok
            · exact Except.noConfusion hok
            · rw [Except.ok.injEq, Prod.mk.injEq] at hok
              exact hok.1.symm
    · subst hm
      cases storage with
      | none => exact Except.noConfusion hok
      | some s =>
        simp only [execute, execute_burn] at hok
        split at hok
        · exact Except.noConfusion hok
        · rw [Except.ok.injEq, Prod.mk.injEq] at hok
          exact hok.1.symm
  · intro h2 i2 m2
    cases m2 <;> rfl
  · intro reqs
    induction reqs with
    | nil => rfl
    | cons a rest ih =>
      have hstep : (step api none a.1 a.2.1 a.2.2).1 = none := by
        cases a.2.2 <;> rfl
      simp only [runSteps, List.foldl_cons]
      rw [hstep]
      exact ih

/-- C8 witness: a concrete successful exercise deletes the record, after
which query and every execute transaction fail with the not-found error
and storage stays empty. -/
theorem C8_settlement_terminal_witness :
    (none : Option State) = none ∧
    query_config (none : Option State) = .error .Std_NotFound ∧
    (∀ h2 i2 m2, step wApi none h2 i2 m2 = (none, .error .Std_NotFound)) ∧
    (∀ reqs, runSteps wApi none reqs = none) :=
  C8_settlement_terminal wApi (some wState) 50 wInfo .Execute none
    { messages := [.Send "creator" [⟨"ETH", 40⟩], .Send "owner" [⟨"BTC", 1⟩]]
      attributes := [("action", "execute")] }
    (Or.inl rfl) rfl

/-- C9: a successful transfer by the owner sets owner to the validated
recipient and changes no other field of the record, emits no bank
transfers, and emits exactly the two audit attributes
(action, transfer) and (owner, recipient); moreover no execute operation
of the contract ever changes the creator field of a record it leaves in
storage (create is excluded: the runtime never re-runs it on an existing
instance). -/
theorem C9_transfer_frame (api : String → Option String) (state : State)
    (height : Nat) (funds : List Coin) (recipient addr : String)
    (hval : api recipient = some addr) :
    execute_transfer api (some state) height ⟨state.owner, funds⟩ recipient =
      .ok (some { state with owner := addr },
        { messages := []
          attributes := [("action", "transfer"), ("owner", recipient)] }) ∧
    (∀ api2 st2 h2 i2 m2 s2 r2,
      execute api2 (some st2) h2 i2 m2 = .ok (some s2, r2) →
      s2.creator = st2.creator) := by
  constructor
  · simp [execute_transfer, hval, Response.new, Response.add_attributes]
  · intro api2 st2 h2 i2 m2 s2 r2 h
    exact execute_preserves_creator api2 st2 h2 i2 m2 s2 r2 h

/-- C9 witness: a concrete transfer by the owner reassigns only the owner
field and emits exactly the two audit attributes; plus the closed creator
preservation statement. -/
theorem C9_transfer_frame_witness :
    execute_transfer wApi (some wState) 50 ⟨wState.owner, []⟩ "alice" =
      .ok (some { wState with owner := "alice" },
        { messages := []
          attributes := [("action", "transfer"), ("owner", "alice")] }) ∧
    (∀ api2 st2 h2 i2 m2 s2 r2,
      execute api2 (some st2) h2 i2 m2 = .ok (some s2, r2) →
      s2.creator = st2.creator) :=
  C9_transfer_frame wApi wState 50 [] "alice" "alice" rfl

/-- C10: transfer is not expiry-gated: for every height — including at or
past expires — a transfer by the owner with a recipient the address
validation accepts succeeds; and the handler never reads the height, so
its result is identical at any two heights for every storage, sender and
recipient. -/
theorem C10_transfer_not_expiry_gated (api : String → Option String) (state : State)
    (height : Nat) (info : MessageInfo) (recipient addr : String)
    (hsender : info.sender = state.owner) (hval : api recipient = some addr) :
    (∃ p, execute_transfer api (some state) height info recipient = .ok p) ∧
    (∀ storage2 ha hb info2 rec2,
      execute_transfer api storage2 ha info2 rec2 =
        execute_transfer api storage2 hb info2 rec2) := by
  constructor
  · exact ⟨_, by simp [execute_transfer, hsender, hval]; rfl⟩
  · intro storage2 ha hb info2 rec2
    rfl

/-- C10 witness: at height 500, far past the expiry 100 of the concrete
record, the owner still transfers it successfully. -/
theorem C10_transfer_not_expiry_gated_witness :
    (∃ p, execute_transfer wApi (some wState) 500 ⟨"owner", []⟩ "alice" = .ok p) ∧
    (∀ storage2 ha hb info2 rec2,
      execute_transfer wApi storage2 ha info2 rec2 =
        execute_transfer wApi storage2 hb info2 rec2) :=
  C10_transfer_not_expiry_gated wApi wState 500 ⟨"owner", []⟩ "alice" "alice" rfl rfl
